import Mathlib

/-!
Verification of the axutils repository (TouchNetix aXiom utilities).

This file gives a shallow embedding, in Lean, of the pure computational
content of `axfw.py` (firmware download), `axcfg.py` (config load) and
`axrpt.py` (report decoding), and proves or refutes the frozen claims
about them.

Modelling conventions:
* a file is a `List Nat` of byte values;
* Python code that can raise an uncaught exception (e.g. `struct.unpack`
  on a short read, or a `KeyError` on a dict) is modelled with
  `Except Unit`, `.error ()` standing for the uncaught exception;
* the external `axiom_tc` device library is modelled as an abstract
  device/decode parameter, and the calls the scripts make into it are
  recorded as explicit event traces.
-/

namespace Axutils

/-! ### CRC-32

`axfw.py` calls `binascii.crc32(data, 0)`.  This is the standard
reflected CRC-32: running value starts at `0xFFFFFFFF` (the seed 0 is
complemented), each input byte is xor-ed into the low bits and eight
polynomial-division steps with the reflected polynomial `0xEDB88320`
are applied, and the final value is complemented again. -/

def CRC_POLY : Nat := 0xEDB88320

/-- One bit step of the reflected CRC-32 division. -/
def crcStep (c : Nat) : Nat :=
  (c >>> 1) ^^^ (if c &&& 1 = 1 then CRC_POLY else 0)

/-- Absorb one byte into the running CRC value. -/
def crcByte (c b : Nat) : Nat := crcStep^[8] (c ^^^ b)

/-- Run the CRC over a byte list starting from running value `c`. -/
def crcProcess (bs : List Nat) (c : Nat) : Nat := bs.foldl crcByte c

/-- `binascii.crc32 bs 0`. -/
def crc32 (bs : List Nat) : Nat := crcProcess bs 0xFFFFFFFF ^^^ 0xFFFFFFFF

/-! Linearity of the CRC update over bitwise xor, bounds, and the fact
that a step never maps a nonzero 32-bit value to zero.  Together these
give: flipping any bits of any one byte of the message changes the
CRC. -/

theorem shiftRight_one_xor (a b : Nat) : (a ^^^ b) >>> 1 = a >>> 1 ^^^ b >>> 1 := by
  simpa [Nat.shiftRight_eq_div_pow] using Nat.xor_div_two (a := a) (b := b)

theorem xor_left_comm (a b c : Nat) : a ^^^ (b ^^^ c) = b ^^^ (a ^^^ c) := by
  rw [← Nat.xor_assoc, Nat.xor_comm a b, Nat.xor_assoc]

theorem xor_cancel_left (a b : Nat) : a ^^^ (a ^^^ b) = b := by
  rw [← Nat.xor_assoc, Nat.xor_self, Nat.zero_xor]

theorem crcStep_xor (a b : Nat) : crcStep (a ^^^ b) = crcStep a ^^^ crcStep b := by
  unfold crcStep
  have hand : (a ^^^ b) &&& 1 = (a &&& 1) ^^^ (b &&& 1) := Nat.and_xor_distrib_right
  have ha : a &&& 1 = a % 2 := Nat.and_one_is_mod a
  have hb : b &&& 1 = b % 2 := Nat.and_one_is_mod b
  have ha2 : a % 2 = 0 ∨ a % 2 = 1 := Nat.mod_two_eq_zero_or_one a
  have hb2 : b % 2 = 0 ∨ b % 2 = 1 := Nat.mod_two_eq_zero_or_one b
  rw [shiftRight_one_xor, hand, ha, hb]
  rcases ha2 with h1 | h1 <;> rcases hb2 with h2 | h2 <;>
    simp [h1, h2, Nat.xor_assoc, Nat.xor_comm, xor_left_comm, xor_cancel_left]

theorem crcStep_zero : crcStep 0 = 0 := by decide

theorem crcStep_lt (c : Nat) (h : c < 2 ^ 32) : crcStep c < 2 ^ 32 := by
  unfold crcStep
  apply Nat.xor_lt_two_pow
  · calc c >>> 1 ≤ c := by
          rw [Nat.shiftRight_eq_div_pow]
          exact Nat.div_le_self c 2
      _ < 2 ^ 32 := h
  · split
    · decide
    · exact Nat.pos_pow_of_pos 32 (by decide)

theorem crcStep_ne_zero (c : Nat) (hne : c ≠ 0) (hlt : c < 2 ^ 32) : crcStep c ≠ 0 := by
  unfold crcStep
  have hmod : c &&& 1 = c % 2 := Nat.and_one_is_mod c
  have hlt' : c < 4294967296 := by norm_num at hlt; exact hlt
  rcases Nat.mod_two_eq_zero_or_one c with h2 | h2
  · -- even: the step is just a right shift
    rw [hmod, h2]
    simp only [if_neg (by decide : ¬ ((0 : Nat) = 1))]
    rw [Nat.xor_zero]
    intro hz
    rw [Nat.shiftRight_eq_div_pow, pow_one] at hz
    omega
  · -- odd: shift xor the polynomial; zero would force c ≥ 2 * CRC_POLY > 2^32
    rw [hmod, h2]
    simp only [if_pos rfl]
    intro hz
    have hshift : c >>> 1 = CRC_POLY := Nat.xor_eq_zero.mp hz
    rw [Nat.shiftRight_eq_div_pow, pow_one] at hshift
    norm_num [CRC_POLY] at hshift
    omega

theorem crcStep_iter_xor (n : Nat) (a b : Nat) :
    crcStep^[n] (a ^^^ b) = crcStep^[n] a ^^^ crcStep^[n] b := by
  induction n generalizing a b with
  | zero => simp
  | succ k ih =>
    rw [Function.iterate_succ_apply, Function.iterate_succ_apply,
      Function.iterate_succ_apply, crcStep_xor, ih]

theorem crcStep_iter_lt (n : Nat) (c : Nat) (h : c < 2 ^ 32) : crcStep^[n] c < 2 ^ 32 := by
  induction n generalizing c with
  | zero => simpa
  | succ k ih => rw [Function.iterate_succ_apply]; exact ih _ (crcStep_lt c h)

theorem crcStep_iter_ne_zero (n : Nat) (c : Nat) (hne : c ≠ 0) (hlt : c < 2 ^ 32) :
    crcStep^[n] c ≠ 0 := by
  induction n generalizing c with
  | zero => simpa
  | succ k ih =>
    rw [Function.iterate_succ_apply]
    exact ih _ (crcStep_ne_zero c hne hlt) (crcStep_lt c hlt)

theorem crcByte_xor (c₁ c₂ b₁ b₂ : Nat) :
    crcByte (c₁ ^^^ c₂) (b₁ ^^^ b₂) = crcByte c₁ b₁ ^^^ crcByte c₂ b₂ := by
  unfold crcByte
  rw [← crcStep_iter_xor]
  congr 1
  rw [Nat.xor_assoc, ← Nat.xor_assoc c₂, Nat.xor_comm c₂ b₁, Nat.xor_assoc b₁, ← Nat.xor_assoc]

theorem crcByte_zero : crcByte 0 0 = 0 := by
  unfold crcByte
  rw [Nat.xor_zero]
  induction' h : (8 : Nat) with k
  · rfl
  · rw [Function.iterate_succ_apply, crcStep_zero]
    exact Function.iterate_fixed crcStep_zero k

theorem crcByte_lt (c b : Nat) (hc : c < 2 ^ 32) (hb : b < 2 ^ 32) : crcByte c b < 2 ^ 32 :=
  crcStep_iter_lt 8 _ (Nat.xor_lt_two_pow hc hb)

theorem crcByte_zero_ne (c : Nat) (hne : c ≠ 0) (hlt : c < 2 ^ 32) : crcByte c 0 ≠ 0 := by
  unfold crcByte
  rw [Nat.xor_zero]
  exact crcStep_iter_ne_zero 8 c hne hlt

theorem crcProcess_xor (bs₁ bs₂ : List Nat) (c₁ c₂ : Nat) (hlen : bs₁.length = bs₂.length) :
    crcProcess (List.zipWith (· ^^^ ·) bs₁ bs₂) (c₁ ^^^ c₂) =
      crcProcess bs₁ c₁ ^^^ crcProcess bs₂ c₂ := by
  induction bs₁ generalizing bs₂ c₁ c₂ with
  | nil =>
    cases bs₂ with
    | nil => simp [crcProcess]
    | cons y ys => simp at hlen
  | cons x xs ih =>
    cases bs₂ with
    | nil => simp at hlen
    | cons y ys =>
      simp only [List.zipWith_cons_cons, crcProcess, List.foldl_cons]
      rw [crcByte_xor]
      exact ih ys _ _ (by simpa using hlen)

theorem crcProcess_zero_replicate (n : Nat) : crcProcess (List.replicate n 0) 0 = 0 := by
  induction n with
  | zero => rfl
  | succ k ih =>
    rw [List.replicate_succ]
    simpa [crcProcess, crcByte_zero] using ih

theorem crcProcess_replicate_ne_zero (n : Nat) (c : Nat) (hne : c ≠ 0) (hlt : c < 2 ^ 32) :
    crcProcess (List.replicate n 0) c ≠ 0 := by
  induction n generalizing c with
  | zero => simpa [crcProcess]
  | succ k ih =>
    rw [List.replicate_succ]
    simpa [crcProcess] using
      ih (crcByte c 0) (crcByte_zero_ne c hne hlt) (crcByte_lt c 0 hlt (by decide))

theorem crcProcess_delta_ne_zero (pre post : Nat) (d : Nat) (hd : d ≠ 0) (hlt : d < 2 ^ 32) :
    crcProcess (List.replicate pre 0 ++ d :: List.replicate post 0) 0 ≠ 0 := by
  have h1 : crcProcess (List.replicate pre 0) 0 = 0 := crcProcess_zero_replicate pre
  unfold crcProcess at *
  rw [List.foldl_append, h1, List.foldl_cons]
  have hb : crcByte 0 d ≠ 0 := by
    unfold crcByte
    rw [Nat.zero_xor]
    exact crcStep_iter_ne_zero 8 d hd hlt
  have hbl : crcByte 0 d < 2 ^ 32 := crcByte_lt 0 d (by decide) hlt
  exact crcProcess_replicate_ne_zero post _ hb hbl

theorem xor_right_cancel (a b k : Nat) (h : a ^^^ k = b ^^^ k) : a = b := by
  have := congrArg (· ^^^ k) h
  simpa [Nat.xor_assoc, Nat.xor_self, Nat.xor_zero] using this

theorem zipXor_self (l : List Nat) :
    List.zipWith (· ^^^ ·) l l = List.replicate l.length 0 := by
  induction l with
  | nil => rfl
  | cons x xs ih => simp [List.replicate_succ, Nat.xor_self, ih]

theorem zipXor_zipXor_self (l l' : List Nat) (hlen : l.length = l'.length) :
    List.zipWith (· ^^^ ·) l (List.zipWith (· ^^^ ·) l l') = l' := by
  induction l generalizing l' with
  | nil => cases l' with
    | nil => rfl
    | cons y ys => simp at hlen
  | cons x xs ih =>
    cases l' with
    | nil => simp at hlen
    | cons y ys =>
      simp only [List.zipWith_cons_cons, xor_cancel_left, List.cons.injEq, true_and]
      exact ih ys (by simpa using hlen)

theorem zipXor_set (l : List Nat) (j : Nat) (b : Nat) (hj : j < l.length) :
    List.zipWith (· ^^^ ·) l (l.set j b) =
      List.replicate j 0 ++ (l.getD j 0 ^^^ b) :: List.replicate (l.length - j - 1) 0 := by
  induction l generalizing j with
  | nil => simp at hj
  | cons x xs ih =>
    cases j with
    | zero =>
      simp [List.set_cons_zero, zipXor_self]
    | succ k =>
      have hk : k < xs.length := by simpa using hj
      simp only [List.set_cons_succ, List.zipWith_cons_cons, Nat.xor_self, List.length_cons,
        List.getD_cons_succ, List.replicate_succ, List.cons_append, Nat.succ_sub_succ]
      rw [ih k hk]

/-- Changing one byte of the message (to a different byte value) always
changes the CRC-32 of the message. -/
theorem crc32_set_ne (m : List Nat) (j b : Nat)
    (hj : j < m.length) (hmj : m.getD j 0 < 256) (hb : b < 256) (hne : b ≠ m.getD j 0) :
    crc32 (m.set j b) ≠ crc32 m := by
  intro heq
  -- strip the final complement and split off the xor-difference message
  have hproc : crcProcess (m.set j b) 0xFFFFFFFF = crcProcess m 0xFFFFFFFF :=
    xor_right_cancel _ _ _ heq
  set delta := List.zipWith (· ^^^ ·) m (m.set j b) with hdelta
  have hlen : m.length = (m.set j b).length := (List.length_set m j b).symm
  have hrecover : List.zipWith (· ^^^ ·) m delta = m.set j b :=
    zipXor_zipXor_self m (m.set j b) hlen
  have hsplit : crcProcess (m.set j b) (0xFFFFFFFF ^^^ 0) =
      crcProcess m 0xFFFFFFFF ^^^ crcProcess delta 0 := by
    rw [← hrecover]
    exact crcProcess_xor m delta 0xFFFFFFFF 0
      (by rw [hdelta]; simp [List.length_zipWith])
  rw [Nat.xor_zero, hproc] at hsplit
  have hdz : crcProcess delta 0 = 0 := by
    have h2 : crcProcess m 0xFFFFFFFF ^^^ crcProcess m 0xFFFFFFFF =
        crcProcess m 0xFFFFFFFF ^^^ (crcProcess m 0xFFFFFFFF ^^^ crcProcess delta 0) :=
      congrArg (crcProcess m 0xFFFFFFFF ^^^ ·) hsplit
    rw [Nat.xor_self, xor_cancel_left] at h2
    exact h2.symm
  -- but the difference message is zero except for one nonzero byte
  have hshape : delta = List.replicate j 0 ++
      (m.getD j 0 ^^^ b) :: List.replicate (m.length - j - 1) 0 :=
    zipXor_set m j b hj
  have hdne : m.getD j 0 ^^^ b ≠ 0 := by
    intro h0
    exact hne (Nat.xor_eq_zero.mp h0).symm
  have hdlt : m.getD j 0 ^^^ b < 2 ^ 32 := by
    have : m.getD j 0 ^^^ b < 256 := by
      have h256 : (256 : Nat) = 2 ^ 8 := by norm_num
      rw [h256] at hmj hb ⊢
      exact Nat.xor_lt_two_pow hmj hb
    omega
  rw [hshape] at hdz
  exact crcProcess_delta_ne_zero j (m.length - j - 1) _ hdne hdlt hdz

/-! ### axfw.py — firmware download

The firmware file is a `List Nat` of bytes.  `isAxfw`/`isAlc` model the
filename-extension tests (`firmware_file.endswith(".axfw")` etc.).
`struct.unpack` on a short read raises an uncaught `struct.error`,
modelled as `.error ()`. -/

def STATUS_SUCCESS : Int := 0

def INVALID_PARAMETER : Int := -1

/-- `get_axfw_header`: returns `(status, header)`.  On a non-`.axfw`
filename it returns status `INVALID_PARAMETER` (header unusable); on a
file shorter than 24 bytes `struct.unpack(">24B", ...)` raises. -/
def get_axfw_header (isAxfw : Bool) (data : List Nat) : Except Unit (Int × List Nat) :=
  if isAxfw = false then .ok (INVALID_PARAMETER, [])
  else if data.length < 24 then .error ()
  else .ok (STATUS_SUCCESS, data.take 24)

/-- `axfw_check_file_and_validate_parameters`.  `force_download` is the
module-level flag set from the `-force` argument; `device_info` is the
raw u31 device-information byte list.  The Python `status` variable
starts at `STATUS_SUCCESS` and is only ever overwritten with
`INVALID_PARAMETER`, so the checks chain as shown.  Subscripting
`device_info` past its end raises (modelled `.error ()`). -/
def axfw_check_file_and_validate_parameters (force_download : Bool)
    (device_info : List Nat) (isAxfw : Bool) (data : List Nat) : Except Unit Int :=
  match get_axfw_header isAxfw data with
  | .error () => .error ()
  | .ok (get_header_status, h) =>
    if get_header_status ≠ STATUS_SUCCESS then
      -- "Unable to check .axfw header and validate parameters"
      .ok INVALID_PARAMETER
    else if device_info.length < 12 then .error ()
    else
      let axfw_crc := h.getD 4 0 + h.getD 5 0 * 256 + h.getD 6 0 * 65536 +
        h.getD 7 0 * 16777216
      let file_format_version_minor := h.getD 8 0
      let file_format_version_major := h.getD 9 0
      let new_device_id := h.getD 10 0 + h.getD 11 0
      let new_fw_version_major := h.getD 14 0
      let new_fw_version_minor := h.getD 13 0
      let new_patch_number := h.getD 15 0
      -- signature = chr(h[0]) + chr(h[1]) + chr(h[2]) + chr(h[3]); compare with "AXFW"
      let s1 : Int :=
        if ¬(h.getD 0 0 = 0x41 ∧ h.getD 1 0 = 0x58 ∧ h.getD 2 0 = 0x46 ∧ h.getD 3 0 = 0x57)
        then INVALID_PARAMETER else STATUS_SUCCESS
      let s2 : Int :=
        if file_format_version_minor ≠ 0 ∧ file_format_version_major ≠ 2
        then INVALID_PARAMETER else s1
      let original_device_id := ((device_info.getD 1 0 &&& 0x7f) <<< 8) + device_info.getD 0 0
      let original_device_channel_count := original_device_id &&& 0x3FF
      let original_fw_ver_major := device_info.getD 3 0
      let original_fw_ver_minor := device_info.getD 2 0
      let original_fw_ver_rc := (device_info.getD 11 0 &&& 0xf0) >>> 4
      -- the CRC is recomputed (seed 0) over the file from offset 8 to EOF
      let calculated_axfw_crc := crc32 (data.drop 8)
      let s3 : Int := if axfw_crc ≠ calculated_axfw_crc then INVALID_PARAMETER else s2
      let s4 : Int :=
        if original_device_channel_count ≠ new_device_id ∧ force_download ≠ true
        then INVALID_PARAMETER else s3
      let s5 : Int :=
        if (new_fw_version_major = original_fw_ver_major ∧
            new_fw_version_minor = original_fw_ver_minor ∧
            new_patch_number = original_fw_ver_rc) ∧ force_download ≠ true
        then INVALID_PARAMETER else s4
      .ok s5

/-- Calls the firmware-download flow makes on the device. -/
inductive FwEvent where
  | enterBootloader : FwEvent
  | chunkWrite (hdr payload : List Nat) : FwEvent
  | resetDevice : FwEvent
deriving DecidableEq, Repr

/-- The chunk-iteration loop of `axfw_download`, acting on the bytes from
the current file position to EOF.  Each iteration reads an 8-byte chunk
header whose last two bytes are a big-endian payload length, reads the
payload, issues `bootloader_write_chunk`, and stops when the position
reaches EOF.  A short read raises in `struct.unpack` (no chunk call for
that iteration); the `Bool` is `false` when the loop died that way. -/
def axfw_chunk_loop (rest : List Nat) : List FwEvent × Bool :=
  if h8 : rest.length < 8 then ([], false)
  else
    let chunk_header := rest.take 8
    let chunk_length := chunk_header.getD 6 0 * 256 + chunk_header.getD 7 0
    let body := rest.drop 8
    if _hp : body.length < chunk_length then ([], false)
    else
      let chunk_payload := body.take chunk_length
      let rest' := body.drop chunk_length
      if rest' = [] then ([FwEvent.chunkWrite chunk_header chunk_payload], true)
      else
        let r := axfw_chunk_loop rest'
        (FwEvent.chunkWrite chunk_header chunk_payload :: r.1, r.2)
termination_by rest.length
decreasing_by
  simp only [List.length_drop]
  omega

/-- The chunk-iteration loop of `alc_download` (textually identical in
the source to the one in `axfw_download`). -/
def alc_chunk_loop (rest : List Nat) : List FwEvent × Bool :=
  if h8 : rest.length < 8 then ([], false)
  else
    let chunk_header := rest.take 8
    let chunk_length := chunk_header.getD 6 0 * 256 + chunk_header.getD 7 0
    let body := rest.drop 8
    if _hp : body.length < chunk_length then ([], false)
    else
      let chunk_payload := body.take chunk_length
      let rest' := body.drop chunk_length
      if rest' = [] then ([FwEvent.chunkWrite chunk_header chunk_payload], true)
      else
        let r := alc_chunk_loop rest'
        (FwEvent.chunkWrite chunk_header chunk_payload :: r.1, r.2)
termination_by rest.length
decreasing_by
  simp only [List.length_drop]
  omega

/-- `axfw_download`: seeks to byte 24 (end of the .axfw header) and runs
the chunk loop to EOF. -/
def axfw_download (data : List Nat) : List FwEvent × Bool :=
  axfw_chunk_loop (data.drop 24)

/-- `alc_download`: runs the chunk loop from byte 0 to EOF. -/
def alc_download (data : List Nat) : List FwEvent × Bool :=
  alc_chunk_loop data

/-- The `__main__` firmware-update flow of `axfw.py`, from the file-type
dispatch to the post-download reset.  `u31_device_information` is the
result of `axiom.get_u31_device_info()`; `enter_bootloader_ok` the
result of `enter_bootloader_mode()`.  The returned `Int` is the process
exit code; `.error ()` marks an uncaught exception.  After a `.alc`
download, `validate_runtime_crc` subscripts the integer error value
returned by `get_axfw_header` for the non-`.axfw` name and raises. -/
def axfw_main (u31_device_information : List Nat) (isAxfw isAlc : Bool)
    (data : List Nat) (force_download : Bool) (enter_bootloader_ok : Bool) :
    List FwEvent × Except Unit Int :=
  if ¬isAxfw ∧ ¬isAlc then ([], .ok (-1))
  else
    -- the filename is nonempty here, so bootloader entry is requested
    -- before the .axfw file is ever validated
    let ev0 := [FwEvent.enterBootloader]
    if ¬enter_bootloader_ok then (ev0, .ok (-1))
    else if isAxfw then
      match axfw_check_file_and_validate_parameters force_download
          u31_device_information true data with
      | .error () => (ev0, .error ())
      | .ok file_valid =>
        if file_valid = STATUS_SUCCESS then
          let dl := axfw_download data
          if dl.2 = false then (ev0 ++ dl.1, .error ())
          else (ev0 ++ dl.1 ++ [FwEvent.resetDevice], .ok 0)
        else
          -- download skipped; reset still issued and exit_code stays 0
          (ev0 ++ [FwEvent.resetDevice], .ok 0)
    else
      let dl := alc_download data
      if dl.2 = false then (ev0 ++ dl.1, .error ())
      else (ev0 ++ dl.1 ++ [FwEvent.resetDevice], .error ())

/-- Recognises chunk-write transport calls. -/
def isChunkWrite : FwEvent → Bool
  | FwEvent.chunkWrite _ _ => true
  | _ => false

/-- Recognises bootloader-entry commands. -/
def isEnterBootloader : FwEvent → Bool
  | FwEvent.enterBootloader => true
  | _ => false

/-! ### axcfg.py — config load

A parsed usage entry is `(usage, revision, payload)`; the Python dict
`usages` keyed by usage id is modelled as an association list whose key
is the first component.  A repeated key overwrites the stored value but
keeps its original position, exactly as a Python `dict` does. -/

/-- One parsed config record: `(usage, revision, payload)`. -/
abbrev CfgEntry := Nat × Nat × List Nat

/-- `usages[usage] = (usage, revision, content)` on a Python dict:
replace in place if the key exists, else append. -/
def insertUsage (us : List CfgEntry) (e : CfgEntry) : List CfgEntry :=
  match us with
  | [] => [e]
  | x :: rest => if x.1 = e.1 then e :: rest else x :: insertUsage rest e

/-- Dict lookup `usages[u]`. -/
def lookupUsage (u : Nat) (us : List CfgEntry) : Option CfgEntry :=
  us.find? (fun e => e.1 = u)

/-- The record-decoding loop of `extract_usages_from_config_file`:
each iteration unpacks `"<3BH"` (usage, revision, reserved byte,
little-endian 16-bit length), then `length` payload bytes, stores the
entry, and stops when the file position reaches EOF.  A short read
raises `struct.error`, which the function does not catch. -/
def cfgLoop (rest : List Nat) (us : List CfgEntry) : Except Unit (List CfgEntry) :=
  if _h5 : rest.length < 5 then .error ()
  else
    let usage := rest.getD 0 0
    let revision := rest.getD 1 0
    let length := rest.getD 3 0 + rest.getD 4 0 * 256
    let body := rest.drop 5
    if _hp : body.length < length then .error ()
    else
      let usage_content := body.take length
      let us' := insertUsage us (usage, revision, usage_content)
      let rest' := body.drop length
      if rest' = [] then .ok us' else cfgLoop rest' us'
termination_by rest.length
decreasing_by
  simp only [List.length_drop]
  omega

/-- `extract_usages_from_config_file`: checks the big-endian magic
`0x20071969` in the first 4 bytes; on a match it decodes records from
offset 13 to EOF, on a mismatch it decodes nothing.  Either way it
returns `(all_usages_size, usages)` where the size has had the 13-byte
header and 5 bytes per stored usage subtracted from the file size.
(The only caught exceptions are `FileNotFoundError`/`IOError`;
`struct.error` from a truncated file propagates, modelled `.error ()`.) -/
def extract_usages_from_config_file (data : List Nat) :
    Except Unit (Int × List CfgEntry) :=
  let all_usages_size : Int := data.length
  if data.length < 4 then .error ()
  else
    let signature := data.getD 0 0 * 16777216 + data.getD 1 0 * 65536 +
      data.getD 2 0 * 256 + data.getD 3 0
    if signature = 0x20071969 then
      match cfgLoop (data.drop 13) [] with
      | .error () => .error ()
      | .ok usages => .ok (all_usages_size - (13 + usages.length * 5), usages)
    else .ok (all_usages_size - 13, [])

/-- Calls the config-load flow makes on the device. -/
inductive CfgEvent where
  | readU33Device : CfgEvent
  | readU31Device : CfgEvent
  | cmdStop : CfgEvent
  | readUsage (u : Nat) : CfgEvent
  | cmdFillConfig : CfgEvent
  | writeUsage (u : Nat) (content : List Nat) : CfgEvent
  | configWriteUsage (u : Nat) (content : List Nat) : CfgEvent
  | cmdSaveConfig : CfgEvent
  | cmdSoftReset : CfgEvent
deriving DecidableEq, Repr

/-- The state the scripts can observe of the `axiom_tc` device object,
abstracting the external library: the runtime CRC decoded from the
device's u33 usage, the current u04 contents, and whether the final
post-reset `compare_u33` against the file's u33 succeeds. -/
structure Device where
  u33RuntimeCrc : Nat
  u04 : List Nat
  postResetU33Matches : Bool

/-- The config-write `for` loop of `axcfg`: iterates the parsed usages
in container order and writes each one with
`config_write_usage_to_device`, skipping usage 0x04 unless
`overwrite_u04` is set. -/
def cfgWriteLoop (usages : List CfgEntry) (overwrite_u04 : Bool) : List CfgEvent :=
  match usages with
  | [] => []
  | (usage, _, usage_content) :: rest =>
    (if usage ≠ 0x04 ∨ (usage = 0x04 ∧ overwrite_u04) then
      [CfgEvent.configWriteUsage usage usage_content]
    else []) ++ cfgWriteLoop rest overwrite_u04

/-- `axcfg(ax, config_file, overwrite_u04)`: the config-load sequence.
`decodeRuntimeCrc` abstracts the `u33_CRCData` decode of the library
(`reg_runtime_crc` from a usage revision and raw payload).  Returns the
transport-call trace and the exit code (3 = incompatible firmware,
4 = verify failed, 0 = success); missing u33/u31 entries in the file
raise `KeyError`, modelled `.error ()`. -/
def axcfg (dev : Device) (decodeRuntimeCrc : Nat → List Nat → Nat)
    (fileData : List Nat) (overwrite_u04 : Bool) : List CfgEvent × Except Unit Int :=
  -- u33 = u33_CRCData(ax): reads u33 from the device
  let ev0 := [CfgEvent.readU33Device]
  match extract_usages_from_config_file fileData with
  | .error () => (ev0, .error ())
  | .ok (_all_usages_size, usages) =>
    match lookupUsage 0x33 usages with
    | none => (ev0, .error ())
    | some (_, rev33, data33) =>
      -- u33_from_file is populated from the file (no device access)
      let fileCrc := decodeRuntimeCrc rev33 data33
      -- u31_from_file = u31_DeviceInformation(ax): reads u31 from the device
      let ev1 := ev0 ++ [CfgEvent.readU31Device]
      match lookupUsage 0x31 usages with
      | none => (ev1, .error ())
      | some _ =>
        if fileCrc ≠ dev.u33RuntimeCrc then
          -- "Cannot load config file as it was saved from a different
          -- revision of firmware." — return 3 before touching the device
          (ev1, .ok 3)
        else
          let evStop := [CfgEvent.cmdStop, CfgEvent.readUsage 0x04,
            CfgEvent.cmdFillConfig, CfgEvent.writeUsage 0x04 dev.u04]
          let evWrites := cfgWriteLoop usages overwrite_u04
          let evSave := [CfgEvent.cmdSaveConfig, CfgEvent.cmdSoftReset,
            CfgEvent.readU33Device]
          let trace := ev1 ++ evStop ++ evWrites ++ evSave
          if ¬dev.postResetU33Matches then (trace, .ok 4)
          else (trace, .ok 0)

/-- Transport calls that change device state (commands and writes, as
opposed to reads). -/
def isMutatingCall : CfgEvent → Bool
  | CfgEvent.cmdStop => true
  | CfgEvent.cmdFillConfig => true
  | CfgEvent.writeUsage _ _ => true
  | CfgEvent.configWriteUsage _ _ => true
  | CfgEvent.cmdSaveConfig => true
  | CfgEvent.cmdSoftReset => true
  | _ => false

/-- The config-usage writes of a trace, as `(usage, payload)` pairs. -/
def configWritesOf (tr : List CfgEvent) : List (Nat × List Nat) :=
  tr.filterMap (fun e => match e with
    | CfgEvent.configWriteUsage u c => some (u, c)
    | _ => none)

/-! ### axrpt.py — report decoding

A report frame read from the u34 FIFO is a `List Nat` of bytes.  The
decoders emit log records through `report_logger.info`; we record each
such call as an event.  Out-of-range list subscripts raise `IndexError`
(modelled `.error ()`). -/

/-- One `report_logger.info` call, with the decoded values the report
string is built from. -/
inductive RptEvent where
  | u01Log (timestamp typ count : Nat) : RptEvent
  | u41Log (timestamp target_status extra_info : Nat)
      (targets : List (Nat × Nat × Nat × Nat)) : RptEvent
  | u45Log (timestamp : Nat)
      (coms : List (Nat × Nat × Nat × Nat × Nat × Nat)) : RptEvent
deriving DecidableEq, Repr

/-- `decode_u01`: basic decode of the u01 system-manager report.
`report_types[type]` raises for `type ≥ 4`. -/
def decode_u01 (report : List Nat) : Except Unit (List RptEvent) :=
  if report.length < 44 then .error ()
  else
    let typ := report.getD 0 0
    let count := report.getD 2 0 + report.getD 3 0 * 256
    let timestamp := report.getD 42 0 + report.getD 43 0 * 256
    if typ ≥ 4 then .error ()
    else .ok [RptEvent.u01Log timestamp typ count]

/-- `decode_u41`: u41 2DCTS report.  Reads the target-status word, the
extra-info bits, the timestamp/checksum at bytes 52–55, and each of the
ten targets' X/Y (4 bytes each from offset 2) and Z (1 byte each from
offset 42); a target is included in the report string iff its
target-status bit is set, and the record is logged only when
`target_status != 0 or extra_info != 0`. -/
def decode_u41 (report : List Nat) : Except Unit (List RptEvent) :=
  if report.length < 56 then .error ()
  else
    let target_status := report.getD 0 0 + (report.getD 1 0 &&& 0x03) * 256
    let extra_info := (report.getD 1 0 &&& 0xFC) >>> 2
    let timestamp := report.getD 52 0 + report.getD 53 0 * 256
    let targets := (List.range 10).filterMap (fun t =>
      let x := report.getD (t * 4 + 2) 0 + report.getD (t * 4 + 3) 0 * 256
      let y := report.getD (t * 4 + 4) 0 + report.getD (t * 4 + 5) 0 * 256
      let z := report.getD (t + 42) 0
      if target_status &&& (1 <<< t) ≠ 0 then some (t, x, y, z) else none)
    if target_status ≠ 0 ∨ extra_info ≠ 0 then
      .ok [RptEvent.u41Log timestamp target_status extra_info targets]
    else .ok []

/-- The `for CoM in range(4)` loop of `decode_u45` (the `ForceOnly`
branch, which the source selects with a constant): collects
`(hotspot_index, com_index, qualification_index, reason, x, y)` for each
slot whose valid byte is 1; a reason byte outside the 7-entry
`PossibleReasonsEffect` list raises. -/
def u45ComLoop (report : List Nat) (com : Nat) :
    Except Unit (List (Nat × Nat × Nat × Nat × Nat × Nat)) :=
  if com ≥ 4 then .ok []
  else
    let offset := com * 8
    if report.getD (offset + 1) 0 = 1 then
      if report.getD (offset + 3) 0 ≥ 7 then .error ()
      else
        match u45ComLoop report (com + 1) with
        | .error () => .error ()
        | .ok rest =>
          .ok ((report.getD offset 0, com, report.getD (offset + 2) 0,
            report.getD (offset + 3) 0,
            report.getD (offset + 4) 0 + report.getD (offset + 5) 0 * 256,
            report.getD (offset + 6) 0 + report.getD (offset + 7) 0 * 256) :: rest)
    else u45ComLoop report (com + 1)
termination_by 4 - com

/-- `decode_u45`: u45 hotspots report (`ForceOnly` branch).  Logged only
when at least one of the four CoM slots is valid. -/
def decode_u45 (report : List Nat) : Except Unit (List RptEvent) :=
  if report.length < 34 then .error ()
  else
    let timestamp := report.getD 32 0 + report.getD 33 0 * 256
    match u45ComLoop report 0 with
    | .error () => .error ()
    | .ok coms =>
      if coms ≠ [] then .ok [RptEvent.u45Log timestamp coms] else .ok []

/-- `decode_and_process_report`: dispatches a received frame on its
second byte (`report[1]`, the usage-ID byte) to the registered decoders,
passing the body `report[2:]`; any other usage-ID byte value is
silently dropped. -/
def decode_and_process_report (report : List Nat) : Except Unit (List RptEvent) :=
  if report.length < 2 then .error ()
  else
    let u := report.getD 1 0
    if u = 0x01 then decode_u01 (report.drop 2)
    else if u = 0x41 then decode_u41 (report.drop 2)
    else if u = 0x45 then decode_u45 (report.drop 2)
    else .ok []

/-- The overflow flag of a report frame: bit 15 of the first 16-bit
little-endian word. -/
def reportOverflowFlag (report : List Nat) : Bool :=
  (report.getD 0 0 + report.getD 1 0 * 256).testBit 15

/-! ### Claim theorems -/

theorem chunk_loops_eq (rest : List Nat) : axfw_chunk_loop rest = alc_chunk_loop rest := by
  generalize hn : rest.length = n
  induction n using Nat.strong_induction_on generalizing rest with
  | _ n ih =>
  subst hn
  unfold axfw_chunk_loop alc_chunk_loop
  by_cases h8 : rest.length < 8
  · simp only [dif_pos h8]
  · simp only [dif_neg h8]
    by_cases hp : (rest.drop 8).length <
        (rest.take 8).getD 6 0 * 256 + (rest.take 8).getD 7 0
    · simp only [dif_pos hp]
    · simp only [dif_neg hp]
      by_cases he : (rest.drop 8).drop
          ((rest.take 8).getD 6 0 * 256 + (rest.take 8).getD 7 0) = []
      · simp only [if_pos he]
      · simp only [if_neg he]
        rw [ih _ (by simp only [List.length_drop]; omega) _ rfl]

/-- C9: if the bytes of an `.axfw` file from offset 24 on are exactly the
bytes of an `.alc` file, then `axfw_download` and `alc_download` issue
the same sequence of `bootloader_write_chunk` calls (same headers, same
payloads, same order), and fail or succeed together. -/
theorem alc_axfw_download_equiv (axfwData alcData : List Nat)
    (h : axfwData.drop 24 = alcData) :
    axfw_download axfwData = alc_download alcData := by
  rw [axfw_download, alc_download, h]
  exact chunk_loops_eq alcData

/-- Witness for C9 at a concrete file pair: one chunk with a 2-byte
payload. -/
theorem alc_axfw_download_equiv_witness :
    ([0, 0, 0, 0, 0, 0, 0, 0, 0, 0, 0, 0, 0, 0, 0, 0, 0, 0, 0, 0, 0, 0, 0, 0,
        9, 9, 9, 9, 9, 9, 0, 2, 7, 8] : List Nat).drop 24 =
      [9, 9, 9, 9, 9, 9, 0, 2, 7, 8] ∧
    axfw_download
        [0, 0, 0, 0, 0, 0, 0, 0, 0, 0, 0, 0, 0, 0, 0, 0, 0, 0, 0, 0, 0, 0, 0, 0,
          9, 9, 9, 9, 9, 9, 0, 2, 7, 8] =
      alc_download [9, 9, 9, 9, 9, 9, 0, 2, 7, 8] :=
  ⟨by decide, alc_axfw_download_equiv _ _ (by decide)⟩

/-- `(data.take 24).getD k 0` is `data.getD k 0` for header indices. -/
theorem getD_take24 (data : List Nat) (k : Nat) (hk : k < 24) :
    (data.take 24).getD k 0 = data.getD k 0 := by
  simp [List.getD_eq_getElem?_getD, List.getElem?_take_of_lt hk]

/-- A 24-byte `.axfw` file (header only): signature "AXFW", correct CRC
over bytes 8–23, format version 2.0 (bytes 8,9), device id 5
(bytes 10,11), firmware version 1.1.0 (bytes 13,14,15). -/
def axfwFileC1 : List Nat :=
  [0x41, 0x58, 0x46, 0x57, 87, 32, 210, 238,
   0, 2, 5, 0, 0, 1, 1, 0, 0, 0, 0, 0, 0, 0, 0, 0]

/-- u31 bytes of a device from a different family: channel count 6,
firmware 0.0.0. -/
def deviceInfoC1 : List Nat := [6, 0, 0, 0, 0, 0, 0, 0, 0, 0, 0, 0]

set_option maxRecDepth 100000 in
/-- C1 counterexample: with the force flag set, a device whose channel
count (6) differs from the `.axfw` file's device id (5) — a
device-family mismatch — still passes
`axfw_check_file_and_validate_parameters`, so the mismatch is
overridable, contrary to the claim. -/
theorem C1_counterexample :
    (((deviceInfoC1.getD 1 0 &&& 0x7f) <<< 8) + deviceInfoC1.getD 0 0) &&& 0x3FF ≠
      axfwFileC1.getD 10 0 + axfwFileC1.getD 11 0 ∧
    axfw_check_file_and_validate_parameters true deviceInfoC1 true axfwFileC1 =
      .ok STATUS_SUCCESS := by
  constructor
  · decide
  · rfl

/-- C1 (amended): a device-id (device-family) mismatch is overridable by
the force flag: for a well-formed `.axfw` file passing the signature,
format-version and CRC checks, whose device id differs from the device's
channel count and whose firmware version triple differs from the
device's, validation succeeds when force is set and fails only when it
is not. -/
theorem C1_amended (force : Bool) (di data : List Nat)
    (hdata : 24 ≤ data.length) (hdi : 12 ≤ di.length)
    (hsig : data.getD 0 0 = 0x41 ∧ data.getD 1 0 = 0x58 ∧
      data.getD 2 0 = 0x46 ∧ data.getD 3 0 = 0x57)
    (hver : ¬(data.getD 8 0 ≠ 0 ∧ data.getD 9 0 ≠ 2))
    (hcrc : data.getD 4 0 + data.getD 5 0 * 256 + data.getD 6 0 * 65536 +
      data.getD 7 0 * 16777216 = crc32 (data.drop 8))
    (hid : (((di.getD 1 0 &&& 0x7f) <<< 8) + di.getD 0 0) &&& 0x3FF ≠
      data.getD 10 0 + data.getD 11 0)
    (hvers : ¬(data.getD 14 0 = di.getD 3 0 ∧ data.getD 13 0 = di.getD 2 0 ∧
      data.getD 15 0 = (di.getD 11 0 &&& 0xf0) >>> 4)) :
    axfw_check_file_and_validate_parameters force di true data =
      .ok (if force then STATUS_SUCCESS else INVALID_PARAMETER) := by
  unfold axfw_check_file_and_validate_parameters get_axfw_header
  rw [if_neg (by decide : ¬ (true = false)), if_neg (by omega : ¬ data.length < 24)]
  dsimp only
  rw [if_neg (by decide : ¬ STATUS_SUCCESS ≠ STATUS_SUCCESS),
    if_neg (by omega : ¬ di.length < 12)]
  rw [getD_take24 data 0 (by omega), getD_take24 data 1 (by omega),
    getD_take24 data 2 (by omega), getD_take24 data 3 (by omega),
    getD_take24 data 4 (by omega), getD_take24 data 5 (by omega),
    getD_take24 data 6 (by omega), getD_take24 data 7 (by omega),
    getD_take24 data 8 (by omega), getD_take24 data 9 (by omega),
    getD_take24 data 10 (by omega), getD_take24 data 11 (by omega),
    getD_take24 data 13 (by omega), getD_take24 data 14 (by omega),
    getD_take24 data 15 (by omega)]
  have hc1 : ¬¬(data.getD 0 0 = 0x41 ∧ data.getD 1 0 = 0x58 ∧
      data.getD 2 0 = 0x46 ∧ data.getD 3 0 = 0x57) := not_not_intro hsig
  have hc3 : ¬(data.getD 4 0 + data.getD 5 0 * 256 + data.getD 6 0 * 65536 +
      data.getD 7 0 * 16777216 ≠ crc32 (data.drop 8)) := not_not_intro hcrc
  have hc5 : ¬((data.getD 14 0 = di.getD 3 0 ∧ data.getD 13 0 = di.getD 2 0 ∧
      data.getD 15 0 = (di.getD 11 0 &&& 0xf0) >>> 4) ∧ force ≠ true) :=
    fun h => hvers h.1
  rw [if_neg hc1, if_neg hver, if_neg hc3, if_neg hc5]
  cases force
  · rw [if_pos ⟨hid, by decide⟩]
    rfl
  · have hc4 : ¬((((di.getD 1 0 &&& 0x7f) <<< 8) + di.getD 0 0) &&& 0x3FF ≠
        data.getD 10 0 + data.getD 11 0 ∧ (true : Bool) ≠ true) := fun h => h.2 rfl
    rw [if_neg hc4]
    rfl

set_option maxRecDepth 100000 in
/-- Witness for C1 (amended) at the concrete mismatching device/file
pair, with force set: validation succeeds. -/
theorem C1_amended_witness :
    axfw_check_file_and_validate_parameters true deviceInfoC1 true axfwFileC1 =
      .ok (if true then STATUS_SUCCESS else INVALID_PARAMETER) :=
  C1_amended true deviceInfoC1 axfwFileC1 (by decide) (by decide) (by decide)
    (by decide) (by decide) (by decide) (by decide)

/-- A 24-byte `.axfw` file identical in shape to `axfwFileC1` except
that its format-version bytes (offsets 8, 9) declare version 3.0
instead of 2.0; its CRC field is correct for its contents. -/
def axfwFileC5 : List Nat :=
  [0x41, 0x58, 0x46, 0x57, 191, 251, 41, 87,
   0, 3, 5, 0, 0, 1, 1, 0, 0, 0, 0, 0, 0, 0, 0, 0]

/-- u31 bytes of a matching-family device (channel count 5) running
firmware 0.0.0. -/
def deviceInfoC5 : List Nat := [5, 0, 0, 0, 0, 0, 0, 0, 0, 0, 0, 0]

set_option maxRecDepth 100000 in
/-- C5: the format-version check uses `and` where the message ("expected
v2.00") requires `or`: a file declaring format version 3.0 — differing
from 0x0200 in the major byte — passes
`axfw_check_file_and_validate_parameters` without any version error
(the whole validation returns `STATUS_SUCCESS`), so validation does not
fail for every header whose version field differs from 2.0. -/
theorem C5_version_check_accepts_v3 :
    (axfwFileC5.getD 8 0 ≠ 0 ∨ axfwFileC5.getD 9 0 ≠ 2) ∧
    axfw_check_file_and_validate_parameters false deviceInfoC5 true axfwFileC5 =
      .ok STATUS_SUCCESS :=
  ⟨by decide, by rfl⟩

/-- A 24-byte `.axfw` file with correct CRC, format version 2.0, device
id 5, build variant 0 (byte 12) and firmware version 1.2.0
(bytes 13, 14, 15 = minor 2, major 1, patch 0). -/
def axfwFileC2 : List Nat :=
  [0x41, 0x58, 0x46, 0x57, 86, 70, 48, 119,
   0, 2, 5, 0, 0, 2, 1, 0, 0, 0, 0, 0, 0, 0, 0, 0]

/-- u31 bytes of a device of the same family (channel count 5, variant
0) already running firmware 1.2.0. -/
def deviceInfoC2 : List Nat := [5, 0, 2, 1, 0, 0, 0, 0, 0, 0, 0, 0]

set_option maxRecDepth 100000 in
/-- C2 counterexample: with device id, build variant and firmware
version all equal between device and file and force unset, the
`__main__` flow still issues one enter-bootloader command (it is sent
before the file is validated), so the run does not perform zero
enter-bootloader commands. -/
theorem C2_counterexample :
    ((((deviceInfoC2.getD 1 0 &&& 0x7f) <<< 8) + deviceInfoC2.getD 0 0) &&& 0x3FF =
      axfwFileC2.getD 10 0 + axfwFileC2.getD 11 0) ∧
    (((((deviceInfoC2.getD 1 0 &&& 0x7f) <<< 8) + deviceInfoC2.getD 0 0) >>> 10) &&& 0x1F =
      axfwFileC2.getD 12 0) ∧
    (axfwFileC2.getD 14 0 = deviceInfoC2.getD 3 0 ∧
      axfwFileC2.getD 13 0 = deviceInfoC2.getD 2 0 ∧
      axfwFileC2.getD 15 0 = (deviceInfoC2.getD 11 0 &&& 0xf0) >>> 4) ∧
    (axfw_main deviceInfoC2 true false axfwFileC2 false true).1.countP
      isEnterBootloader = 1 := by
  refine ⟨by decide, by decide, by decide, ?_⟩
  rfl

/-- C2 (amended): when the device's firmware version triple equals the
file header's (and its device id and build variant equal the header's,
which the check never examines beyond the id) and force is unset, the
validation rejects the file ("Device Firmware Version already on
Device"), so zero chunk writes happen — but exactly one enter-bootloader
command is still issued, before validation. -/
theorem C2_amended (di data : List Nat) (bootOk : Bool)
    (hdata : 24 ≤ data.length) (hdi : 12 ≤ di.length)
    (hidEq : (((di.getD 1 0 &&& 0x7f) <<< 8) + di.getD 0 0) &&& 0x3FF =
      data.getD 10 0 + data.getD 11 0)
    (hvarEq : ((((di.getD 1 0 &&& 0x7f) <<< 8) + di.getD 0 0) >>> 10) &&& 0x1F =
      data.getD 12 0)
    (hvmaj : data.getD 14 0 = di.getD 3 0) (hvmin : data.getD 13 0 = di.getD 2 0)
    (hvpat : data.getD 15 0 = (di.getD 11 0 &&& 0xf0) >>> 4) :
    axfw_check_file_and_validate_parameters false di true data = .ok INVALID_PARAMETER ∧
    (axfw_main di true false data false bootOk).1.countP isChunkWrite = 0 ∧
    (axfw_main di true false data false bootOk).1.countP isEnterBootloader = 1 := by
  have hval : axfw_check_file_and_validate_parameters false di true data =
      .ok INVALID_PARAMETER := by
    unfold axfw_check_file_and_validate_parameters get_axfw_header
    rw [if_neg (by decide : ¬ (true = false)), if_neg (by omega : ¬ data.length < 24)]
    dsimp only
    rw [if_neg (by decide : ¬ STATUS_SUCCESS ≠ STATUS_SUCCESS),
      if_neg (by omega : ¬ di.length < 12)]
    rw [getD_take24 data 13 (by omega), getD_take24 data 14 (by omega),
      getD_take24 data 15 (by omega)]
    rw [if_pos ⟨⟨hvmaj, hvmin, hvpat⟩, by decide⟩]
  refine ⟨hval, ?_, ?_⟩ <;>
  · unfold axfw_main
    rw [if_neg (by simp : ¬ (¬ (true : Bool) ∧ ¬ (false : Bool)))]
    cases bootOk
    · rfl
    · rw [if_neg (by decide : ¬ ¬ (true : Bool)), if_pos rfl, hval]
      rfl

set_option maxRecDepth 100000 in
/-- Witness for C2 (amended) at the concrete device/file pair. -/
theorem C2_amended_witness :
    axfw_check_file_and_validate_parameters false deviceInfoC2 true axfwFileC2 =
      .ok INVALID_PARAMETER ∧
    (axfw_main deviceInfoC2 true false axfwFileC2 false true).1.countP
      isChunkWrite = 0 ∧
    (axfw_main deviceInfoC2 true false axfwFileC2 false true).1.countP
      isEnterBootloader = 1 :=
  C2_amended deviceInfoC2 axfwFileC2 true (by decide) (by decide) (by decide)
    (by decide) (by decide) (by decide) (by decide)

/-- C3 (amended): the overflow flag is never surfaced — it is not even
decoded.  For every frame whose overflow bit (bit 15 of the first
16-bit word) is set, `decode_and_process_report` produces no log event
at all: the flag bit sits in the byte the dispatcher compares against
the usage-ID constants, so no decoder matches and the frame is silently
dropped, with no "frames dropped" signal of any kind. -/
theorem C3_overflow_flag_ignored (report : List Nat)
    (hlen : 2 ≤ report.length) (h0 : report.getD 0 0 < 256)
    (hov : reportOverflowFlag report = true) :
    decode_and_process_report report = .ok [] := by
  have h0' : report.getD 0 0 < 2 ^ 8 := by
    rw [show (2 : Nat) ^ 8 = 256 from rfl]
    exact h0
  have hbit : (report.getD 1 0).testBit 7 = true := by
    unfold reportOverflowFlag at hov
    rw [show report.getD 0 0 + report.getD 1 0 * 256 =
      2 ^ 8 * report.getD 1 0 + report.getD 0 0 by ring] at hov
    rw [Nat.testBit_mul_pow_two_add _ h0' 15] at hov
    simpa using hov
  have hge : 128 ≤ report.getD 1 0 := by
    have h2 := Nat.testBit_implies_ge hbit
    rw [show (2 : Nat) ^ 7 = 128 from rfl] at h2
    exact h2
  unfold decode_and_process_report
  rw [if_neg (by omega : ¬ report.length < 2)]
  rw [if_neg (by omega : ¬ report.getD 1 0 = 0x01),
    if_neg (by omega : ¬ report.getD 1 0 = 0x41),
    if_neg (by omega : ¬ report.getD 1 0 = 0x45)]

/-- C3 counterexample: a concrete frame with the overflow bit set
produces no log event whatsoever from `decode_and_process_report` — in
particular no distinguishable "frames dropped" signal. -/
theorem C3_counterexample :
    reportOverflowFlag [0, 0xC1, 1, 1] = true ∧
    decode_and_process_report [0, 0xC1, 1, 1] = .ok [] :=
  ⟨by decide, by rfl⟩

/-- Witness for C3 at a concrete frame with the overflow bit set. -/
theorem C3_overflow_flag_ignored_witness :
    2 ≤ ([0, 0xC1, 5, 5] : List Nat).length ∧
    reportOverflowFlag [0, 0xC1, 5, 5] = true ∧
    decode_and_process_report [0, 0xC1, 5, 5] = .ok [] :=
  ⟨by decide, by decide,
    C3_overflow_flag_ignored [0, 0xC1, 5, 5] (by decide) (by decide) (by decide)⟩

/-- C4 counterexample: on a buffer whose first 4 bytes are not the magic
`0x20071969`, `extract_usages_from_config_file` does not reject the file
with an error: it returns normally — with no decoded entries, but with
the ordinary success shape `(file_size - 13, empty dict)` that gives the
caller no error signal. -/
theorem C4_counterexample :
    extract_usages_from_config_file [0, 0, 0, 0, 1, 2, 3] = .ok (-6, []) ∧
    ¬ ∃ e, extract_usages_from_config_file [0, 0, 0, 0, 1, 2, 3] = .error e := by
  refine ⟨by rfl, ?_⟩
  rintro ⟨e, he⟩
  rw [(by rfl : extract_usages_from_config_file [0, 0, 0, 0, 1, 2, 3] =
    .ok (-6, []))] at he
  exact Except.noConfusion he

/-- C4 (amended): the decoder checks the magic before interpreting
anything else, and on a mismatch it decodes no entries and interprets no
record bytes — but it does not raise any error: it returns normally with
an empty mapping and the size `file_length - 13`. -/
theorem C4_amended (data : List Nat) (hlen : 4 ≤ data.length)
    (hsig : data.getD 0 0 * 16777216 + data.getD 1 0 * 65536 +
      data.getD 2 0 * 256 + data.getD 3 0 ≠ 0x20071969) :
    extract_usages_from_config_file data = .ok ((data.length : Int) - 13, []) := by
  unfold extract_usages_from_config_file
  rw [if_neg (by omega : ¬ data.length < 4), if_neg hsig]

/-- Witness for C4 (amended) at a concrete bad-magic buffer. -/
theorem C4_amended_witness :
    extract_usages_from_config_file [9, 9, 9, 9, 1] = .ok ((5 : Int) - 13, []) :=
  C4_amended [9, 9, 9, 9, 1] (by decide) (by decide)

/-- One decoding step of `cfgLoop` on a well-formed record whose
little-endian length bytes `a`, `b` encode exactly the payload length. -/
theorem cfgLoop_record (u r a b : Nat) (p tail : List Nat) (us : List CfgEntry)
    (hab : a + b * 256 = p.length) :
    cfgLoop ([u, r, 0, a, b] ++ p ++ tail) us =
      (if tail = [] then .ok (insertUsage us (u, r, p))
       else cfgLoop tail (insertUsage us (u, r, p))) := by
  conv_lhs => unfold cfgLoop
  simp only [List.cons_append, List.nil_append, List.length_cons, List.length_append,
    List.getD_cons_zero, List.getD_cons_succ, List.drop_succ_cons, List.drop_zero, hab]
  rw [dif_neg (by omega)]
  rw [dif_neg (by omega)]
  rw [@List.take_left' Nat p tail p.length rfl, @List.drop_left' Nat p tail p.length rfl]

/-- `extract_usages_from_config_file` on a file made of the 13-byte
header (magic plus 9 reserved bytes) followed by record bytes whose
decode loop yields `us`. -/
theorem extract_usages_of_records (rest : List Nat) (us : List CfgEntry)
    (h : cfgLoop rest [] = .ok us) :
    extract_usages_from_config_file
      ([0x20, 0x07, 0x19, 0x69, 0, 0, 0, 0, 0, 0, 0, 0, 0] ++ rest) =
      .ok ((rest.length : Int) - us.length * 5, us) := by
  unfold extract_usages_from_config_file
  rw [if_neg (by simp only [List.length_append, List.length_cons, List.length_nil]; omega)]
  simp only [List.cons_append, List.nil_append, List.getD_cons_zero, List.getD_cons_succ,
    List.drop_succ_cons, List.drop_zero]
  rw [if_pos (by norm_num)]
  rw [h]
  simp only [List.length_cons, List.length_append, List.length_nil]
  congr 1
  congr 1
  push_cast
  ring

/-- C10 (amended): for a config file holding two well-formed records
with the same usage id, the decoded mapping holds exactly one entry for
that id — the revision and payload of the last record in file order —
but the returned payload-size total still counts the overwritten
record's payload bytes and all but one of the 5-byte record overheads:
it is `file_size - 13 - 5 * (number of distinct usage ids)`, here
`5 + |p1| + |p2|` rather than `|p2|`. -/
theorem C10_amended (u r1 r2 a1 b1 a2 b2 : Nat) (p1 p2 : List Nat)
    (hab1 : a1 + b1 * 256 = p1.length) (hab2 : a2 + b2 * 256 = p2.length) :
    extract_usages_from_config_file
      ([0x20, 0x07, 0x19, 0x69, 0, 0, 0, 0, 0, 0, 0, 0, 0] ++
        ([u, r1, 0, a1, b1] ++ p1 ++ ([u, r2, 0, a2, b2] ++ p2))) =
      .ok ((5 : Int) + p1.length + p2.length, [(u, r2, p2)]) := by
  have h2 := cfgLoop_record u r2 a2 b2 p2 [] (insertUsage [] (u, r1, p1)) hab2
  rw [List.append_nil, if_pos rfl] at h2
  have h1 := cfgLoop_record u r1 a1 b1 p1 ([u, r2, 0, a2, b2] ++ p2) [] hab1
  rw [if_neg (by simp), h2] at h1
  have hus : insertUsage (insertUsage [] (u, r1, p1)) (u, r2, p2) = [(u, r2, p2)] := by
    simp [insertUsage]
  rw [hus] at h1
  rw [extract_usages_of_records _ _ h1]
  congr 1
  congr 1
  simp only [List.length_append, List.length_cons, List.length_nil]
  push_cast
  ring

/-- Witness for C10 (amended) at a concrete duplicate-usage file. -/
theorem C10_amended_witness :
    extract_usages_from_config_file
      ([0x20, 0x07, 0x19, 0x69, 0, 0, 0, 0, 0, 0, 0, 0, 0] ++
        ([0x31, 1, 0, 2, 0] ++ [0xAA, 0xBB] ++
          ([0x31, 2, 0, 3, 0] ++ [0xCC, 0xDD, 0xEE]))) =
      .ok ((5 : Int) + ([0xAA, 0xBB] : List Nat).length +
        ([0xCC, 0xDD, 0xEE] : List Nat).length, [(0x31, 2, [0xCC, 0xDD, 0xEE])]) :=
  C10_amended 0x31 1 2 2 0 3 0 [0xAA, 0xBB] [0xCC, 0xDD, 0xEE] (by decide) (by decide)

/-- C10 counterexample: on the concrete duplicate-usage file whose two
`0x31` records carry 2 and 3 payload bytes, the decoded mapping is the
single last-wins entry, but the payload-size total is 10 — counting the
first record's 2 payload bytes and 5 overhead bytes — not the 3 bytes
of the surviving entry, so the duplicate is not counted only once. -/
theorem C10_counterexample :
    extract_usages_from_config_file
      [0x20, 0x07, 0x19, 0x69, 0, 0, 0, 0, 0, 0, 0, 0, 0,
        0x31, 1, 0, 2, 0, 0xAA, 0xBB, 0x31, 2, 0, 3, 0, 0xCC, 0xDD, 0xEE] =
      .ok (10, [(0x31, 2, [0xCC, 0xDD, 0xEE])]) ∧
    (10 : Int) ≠ ([0xCC, 0xDD, 0xEE] : List Nat).length := by
  constructor
  · have h := C10_amended 0x31 1 2 2 0 3 0 [0xAA, 0xBB] [0xCC, 0xDD, 0xEE]
      (by decide) (by decide)
    norm_num at h
    convert h using 2
  · decide

/-- C7: when the runtime CRC decoded from the config file's u33 entry
differs from the runtime CRC read from the device's u33 usage, `axcfg`
returns exit code 3 having performed only the two device reads — no
stop/fill/save/reset command and no usage write reaches the device. -/
theorem C7_crc_mismatch_zero_writes (dev : Device) (dec : Nat → List Nat → Nat)
    (fileData : List Nat) (overwrite : Bool) (sz : Int) (usages : List CfgEntry)
    (eu33 er33 : Nat) (ed33 : List Nat) (e31 : CfgEntry)
    (hx : extract_usages_from_config_file fileData = .ok (sz, usages))
    (h33 : lookupUsage 0x33 usages = some (eu33, er33, ed33))
    (h31 : lookupUsage 0x31 usages = some e31)
    (hne : dec er33 ed33 ≠ dev.u33RuntimeCrc) :
    (axcfg dev dec fileData overwrite).2 = .ok 3 ∧
    (axcfg dev dec fileData overwrite).1.filter isMutatingCall = [] := by
  have hres : axcfg dev dec fileData overwrite =
      ([CfgEvent.readU33Device, CfgEvent.readU31Device], .ok 3) := by
    unfold axcfg
    rw [hx]
    dsimp only
    rw [h33]
    dsimp only
    rw [h31]
    dsimp only
    rw [if_pos hne]
    rfl
  rw [hres]
  exact ⟨rfl, rfl⟩

/-- The config-write loop writes exactly the container entries passing
the u04 filter, in container order. -/
theorem cfgWriteLoop_writes (us : List CfgEntry) (ow : Bool) :
    configWritesOf (cfgWriteLoop us ow) =
      (us.filter (fun e => decide (e.1 ≠ 0x04 ∨ (e.1 = 0x04 ∧ ow = true)))).map
        (fun e => (e.1, e.2.2)) := by
  induction us with
  | nil => rfl
  | cons e rest ih =>
    obtain ⟨u, r, c⟩ := e
    by_cases h : u ≠ 0x04 ∨ (u = 0x04 ∧ ow = true)
    · simp only [cfgWriteLoop, if_pos h, configWritesOf, List.filterMap_append] at ih ⊢
      simp only [List.filterMap_cons, List.filterMap_nil, List.filter_cons]
      rw [if_pos (by simpa using h)]
      simpa [configWritesOf] using ih
    · simp only [cfgWriteLoop, if_neg h, configWritesOf, List.filterMap_append] at ih ⊢
      simp only [List.filterMap_nil, List.filter_cons, List.nil_append]
      rw [if_neg (by simpa using h)]
      simpa [configWritesOf] using ih

/-- The trace of a compatible `axcfg` run: reads, the stop/fill
preamble with the u04 restore, the container writes, then save/reset
and the verify re-read. -/
theorem axcfg_match_trace (dev : Device) (dec : Nat → List Nat → Nat)
    (fileData : List Nat) (overwrite : Bool) (sz : Int) (usages : List CfgEntry)
    (eu33 er33 : Nat) (ed33 : List Nat) (e31 : CfgEntry)
    (hx : extract_usages_from_config_file fileData = .ok (sz, usages))
    (h33 : lookupUsage 0x33 usages = some (eu33, er33, ed33))
    (h31 : lookupUsage 0x31 usages = some e31)
    (heq : dec er33 ed33 = dev.u33RuntimeCrc) :
    (axcfg dev dec fileData overwrite).1 =
      [CfgEvent.readU33Device, CfgEvent.readU31Device, CfgEvent.cmdStop,
        CfgEvent.readUsage 0x04, CfgEvent.cmdFillConfig,
        CfgEvent.writeUsage 0x04 dev.u04] ++
      cfgWriteLoop usages overwrite ++
      [CfgEvent.cmdSaveConfig, CfgEvent.cmdSoftReset, CfgEvent.readU33Device] := by
  unfold axcfg
  rw [hx]
  dsimp only
  rw [h33]
  dsimp only
  rw [h31]
  dsimp only
  rw [if_neg (not_not_intro heq)]
  by_cases hpr : dev.postResetU33Matches
  · rw [if_neg (not_not_intro hpr)]
    rfl
  · rw [if_pos hpr]
    rfl

/-- C6: in a compatible config-load run, the usages written via
`config_write_usage_to_device` are exactly the container's entries that
pass the u04 filter, in container order: every non-0x04 entry is
written, and the container's 0x04 entry is written iff the
overwrite-u04 flag is set. -/
theorem C6_written_usages (dev : Device) (dec : Nat → List Nat → Nat)
    (fileData : List Nat) (overwrite : Bool) (sz : Int) (usages : List CfgEntry)
    (eu33 er33 : Nat) (ed33 : List Nat) (e31 : CfgEntry)
    (hx : extract_usages_from_config_file fileData = .ok (sz, usages))
    (h33 : lookupUsage 0x33 usages = some (eu33, er33, ed33))
    (h31 : lookupUsage 0x31 usages = some e31)
    (heq : dec er33 ed33 = dev.u33RuntimeCrc) :
    configWritesOf (axcfg dev dec fileData overwrite).1 =
      (usages.filter (fun e => decide (e.1 ≠ 0x04 ∨ (e.1 = 0x04 ∧ overwrite = true)))).map
        (fun e => (e.1, e.2.2)) ∧
    (∀ e ∈ usages, e.1 ≠ 0x04 →
      (e.1, e.2.2) ∈ configWritesOf (axcfg dev dec fileData overwrite).1) ∧
    (∀ e ∈ usages, e.1 = 0x04 →
      ((e.1, e.2.2) ∈ configWritesOf (axcfg dev dec fileData overwrite).1 ↔
        overwrite = true)) := by
  have htr := axcfg_match_trace dev dec fileData overwrite sz usages
    eu33 er33 ed33 e31 hx h33 h31 heq
  have hw : configWritesOf (axcfg dev dec fileData overwrite).1 =
      (usages.filter (fun e => decide (e.1 ≠ 0x04 ∨ (e.1 = 0x04 ∧ overwrite = true)))).map
        (fun e => (e.1, e.2.2)) := by
    rw [htr]
    simp only [configWritesOf, List.filterMap_append] at *
    rw [← cfgWriteLoop_writes usages overwrite]
    simp [configWritesOf]
  refine ⟨hw, ?_, ?_⟩
  · intro e he hne
    rw [hw]
    exact List.mem_map_of_mem _ (List.mem_filter.mpr ⟨he, by simp [hne]⟩)
  · intro e he h4
    rw [hw]
    constructor
    · intro hmem
      obtain ⟨e', he', hfe⟩ := List.mem_map.mp hmem
      obtain ⟨hmem', hp⟩ := List.mem_filter.mp he'
      have : e'.1 = 0x04 := by
        have := congrArg Prod.fst hfe
        simpa [h4] using this
      simp [this] at hp
      exact hp
    · intro how
      exact List.mem_map_of_mem _ (List.mem_filter.mpr ⟨he, by simp [h4, how]⟩)

/-- A concrete three-record config file: usages 0x31 (4 payload bytes),
0x33 (8 bytes) and 0x04 (4 bytes). -/
def cfgFileW : List Nat :=
  [0x20, 0x07, 0x19, 0x69, 0, 0, 0, 0, 0, 0, 0, 0, 0] ++
    ([0x31, 1, 0, 4, 0] ++ [1, 2, 3, 4] ++
      ([0x33, 1, 0, 8, 0] ++ [5, 6, 7, 8, 9, 10, 11, 12] ++
        ([0x04, 1, 0, 4, 0] ++ [9, 9, 9, 9] ++ [])))

theorem extract_cfgFileW :
    extract_usages_from_config_file cfgFileW =
      .ok (16, [(0x31, 1, [1, 2, 3, 4]), (0x33, 1, [5, 6, 7, 8, 9, 10, 11, 12]),
        (0x04, 1, [9, 9, 9, 9])]) := by
  have h3 := cfgLoop_record 0x04 1 4 0 [9, 9, 9, 9] []
    (insertUsage (insertUsage [] (0x31, 1, [1, 2, 3, 4]))
      (0x33, 1, [5, 6, 7, 8, 9, 10, 11, 12])) (by decide)
  rw [if_pos rfl] at h3
  have h2 := cfgLoop_record 0x33 1 8 0 [5, 6, 7, 8, 9, 10, 11, 12]
    ([0x04, 1, 0, 4, 0] ++ [9, 9, 9, 9] ++ [])
    (insertUsage [] (0x31, 1, [1, 2, 3, 4])) (by decide)
  rw [if_neg (by simp), h3] at h2
  have h1 := cfgLoop_record 0x31 1 4 0 [1, 2, 3, 4]
    ([0x33, 1, 0, 8, 0] ++ [5, 6, 7, 8, 9, 10, 11, 12] ++
      ([0x04, 1, 0, 4, 0] ++ [9, 9, 9, 9] ++ [])) [] (by decide)
  rw [if_neg (by simp), h2] at h1
  have hus : insertUsage (insertUsage (insertUsage []
      ((0x31 : Nat), (1 : Nat), ([1, 2, 3, 4] : List Nat)))
      (0x33, 1, [5, 6, 7, 8, 9, 10, 11, 12])) (0x04, 1, [9, 9, 9, 9]) =
      [(0x31, 1, [1, 2, 3, 4]), (0x33, 1, [5, 6, 7, 8, 9, 10, 11, 12]),
        (0x04, 1, [9, 9, 9, 9])] := by decide
  rw [hus] at h1
  unfold cfgFileW
  rw [extract_usages_of_records _ _ h1]
  congr 1

/-- Witness for C7 at a concrete device (runtime CRC 6) and file whose
u33 entry decodes to 5. -/
theorem C7_crc_mismatch_zero_writes_witness :
    (axcfg ⟨6, [7, 7], true⟩ (fun _ d => d.headD 0) cfgFileW false).2 = .ok 3 ∧
    (axcfg ⟨6, [7, 7], true⟩ (fun _ d => d.headD 0) cfgFileW false).1.filter
      isMutatingCall = [] :=
  C7_crc_mismatch_zero_writes ⟨6, [7, 7], true⟩ (fun _ d => d.headD 0) cfgFileW false
    16 [(0x31, 1, [1, 2, 3, 4]), (0x33, 1, [5, 6, 7, 8, 9, 10, 11, 12]),
      (0x04, 1, [9, 9, 9, 9])]
    0x33 1 [5, 6, 7, 8, 9, 10, 11, 12] (0x31, 1, [1, 2, 3, 4])
    extract_cfgFileW (by decide) (by decide) (by decide)

/-- Witness for C6 at a concrete matching device (runtime CRC 5): with
the overwrite flag unset, exactly usages 0x31 and 0x33 are written. -/
theorem C6_written_usages_witness :
    configWritesOf (axcfg ⟨5, [7, 7], true⟩ (fun _ d => d.headD 0) cfgFileW false).1 =
      (([(0x31, 1, [1, 2, 3, 4]), (0x33, 1, [5, 6, 7, 8, 9, 10, 11, 12]),
          (0x04, 1, [9, 9, 9, 9])] : List CfgEntry).filter
        (fun e => decide (e.1 ≠ 0x04 ∨ (e.1 = 0x04 ∧ false = true)))).map
        (fun e => (e.1, e.2.2)) :=
  (C6_written_usages ⟨5, [7, 7], true⟩ (fun _ d => d.headD 0) cfgFileW false
    16 [(0x31, 1, [1, 2, 3, 4]), (0x33, 1, [5, 6, 7, 8, 9, 10, 11, 12]),
      (0x04, 1, [9, 9, 9, 9])]
    0x33 1 [5, 6, 7, 8, 9, 10, 11, 12] (0x31, 1, [1, 2, 3, 4])
    extract_cfgFileW (by decide) (by decide) (by decide)).1

/-- C8: the `.axfw` integrity check recomputes CRC-32 (seed 0) over the
bytes from offset 8 to EOF and compares it with the little-endian CRC
field at offsets 4–7; hence for any buffer whose CRC check passes,
changing any single byte at or after offset 8 to a different byte value
makes the validation fail. -/
theorem C8_crc_mutation_rejected (force : Bool) (di data : List Nat) (i b : Nat)
    (hdi : 12 ≤ di.length) (hlen : 24 ≤ data.length)
    (hi8 : 8 ≤ i) (hi : i < data.length)
    (hbyte : data.getD i 0 < 256) (hb : b < 256) (hne : b ≠ data.getD i 0)
    (hcrc : data.getD 4 0 + data.getD 5 0 * 256 + data.getD 6 0 * 65536 +
      data.getD 7 0 * 16777216 = crc32 (data.drop 8)) :
    axfw_check_file_and_validate_parameters force di true (data.set i b) =
      .ok INVALID_PARAMETER := by
  have hdropset : (data.set i b).drop 8 = (data.drop 8).set (i - 8) b := by
    rw [List.drop_set, if_neg (by omega : ¬ i < 8)]
  have hj : i - 8 < (data.drop 8).length := by
    rw [List.length_drop]
    omega
  have hgd : (data.drop 8).getD (i - 8) 0 = data.getD i 0 := by
    simp only [List.getD_eq_getElem?_getD, List.getElem?_drop]
    rw [(by omega : 8 + (i - 8) = i)]
  have hcrcne : crc32 ((data.drop 8).set (i - 8) b) ≠ crc32 (data.drop 8) :=
    crc32_set_ne (data.drop 8) (i - 8) b hj (hgd ▸ hbyte) hb (hgd ▸ hne)
  have hk : ∀ k, k < 8 → (data.set i b).getD k 0 = data.getD k 0 := by
    intro k hklt
    simp [List.getD_eq_getElem?_getD, List.getElem?_set_ne (by omega : i ≠ k)]
  have hc3 : data.getD 4 0 + data.getD 5 0 * 256 + data.getD 6 0 * 65536 +
      data.getD 7 0 * 16777216 ≠ crc32 ((data.drop 8).set (i - 8) b) := by
    rw [hcrc]
    exact hcrcne.symm
  unfold axfw_check_file_and_validate_parameters get_axfw_header
  rw [if_neg (by decide : ¬ (true = false)),
    if_neg (by rw [List.length_set]; omega : ¬ (data.set i b).length < 24)]
  dsimp only
  rw [if_neg (by decide : ¬ STATUS_SUCCESS ≠ STATUS_SUCCESS),
    if_neg (by omega : ¬ di.length < 12)]
  rw [getD_take24 _ 4 (by omega), getD_take24 _ 5 (by omega),
    getD_take24 _ 6 (by omega), getD_take24 _ 7 (by omega)]
  rw [hk 4 (by omega), hk 5 (by omega), hk 6 (by omega), hk 7 (by omega)]
  rw [hdropset]
  rw [if_pos hc3]
  rw [ite_self, ite_self]

set_option maxRecDepth 100000 in
/-- Witness for C8: flipping byte 8 of the CRC-valid `axfwFileC1` from
0 to 1 makes validation fail. -/
theorem C8_crc_mutation_rejected_witness :
    axfw_check_file_and_validate_parameters false deviceInfoC1 true
      (axfwFileC1.set 8 1) = .ok INVALID_PARAMETER :=
  C8_crc_mutation_rejected false deviceInfoC1 axfwFileC1 8 1 (by decide) (by decide)
    (by decide) (by decide) (by decide) (by decide) (by decide) (by decide)

end Axutils
